import Mathlib

/-!
# Speaking-order resolver and turn state machine — verification

Shallow embedding of the debate room's speaking-order logic:

* the 8-slot Asian Parliamentary format (`SPEAKING_ORDER`, from
  `src/drizzle/schema.ts` lines 688–697; the server's
  `ASIAN_PARLIAMENTARY_FORMAT.speakingOrder` used by `src/server/routers.ts`
  has the same eight slots in the same order),
* the `start` mutation (`src/server/routers.ts` lines 258–338),
* the `advanceSpeaker` mutation (`src/server/routers.ts` lines 340–394).

Database reads/writes are modelled by explicit state passing: the room row is a
`Room` value, the roster a `List Participant`, and timestamps an abstract
`Nat` clock value passed to each mutation.  A thrown `TRPCError` is modelled by
`Except.error`; an error leaves the room unchanged, exactly as a throw before
the `db.updateDebateRoom` call does in the source.

JavaScript partiality is made explicit: `jsGet` is array indexing (out of
range gives `none`, i.e. `undefined`), `jsFindIdx` is `Array.findIndex`
(gives `-1` when nothing matches), and `Option Int` models the nullable
`currentSpeakerIndex` column with `.getD 0` playing the role of `|| 0`.
-/

/-- The eight canonical speaker roles (`speakerRole` enum of
`debate_participants` plus the two reply slots of the format). -/
inductive Role where
  | prime_minister
  | leader_of_opposition
  | deputy_prime_minister
  | deputy_leader_of_opposition
  | government_whip
  | opposition_whip
  | opposition_reply
  | government_reply
deriving DecidableEq, Repr

instance : Fintype Role :=
  ⟨⟨[Role.prime_minister, Role.leader_of_opposition, Role.deputy_prime_minister,
     Role.deputy_leader_of_opposition, Role.government_whip, Role.opposition_whip,
     Role.opposition_reply, Role.government_reply], by decide⟩,
   fun r => by cases r <;> decide⟩

inductive Team where
  | government
  | opposition
deriving DecidableEq, Repr

/-- One slot of the format definition (`SPEAKING_ORDER` entries in
`src/drizzle/schema.ts`: role, team, label, time budget in seconds). -/
structure Slot where
  role : Role
  team : Team
  label : String
  time : Nat
deriving DecidableEq, Repr

/-- The fixed 8-slot format, `src/drizzle/schema.ts` lines 688–697. -/
def SPEAKING_ORDER : List Slot :=
  [⟨Role.prime_minister, Team.government, "Prime Minister", 420⟩,
   ⟨Role.leader_of_opposition, Team.opposition, "Leader of Opposition", 420⟩,
   ⟨Role.deputy_prime_minister, Team.government, "Deputy Prime Minister", 420⟩,
   ⟨Role.deputy_leader_of_opposition, Team.opposition, "Deputy Leader of Opposition", 420⟩,
   ⟨Role.government_whip, Team.government, "Government Whip", 420⟩,
   ⟨Role.opposition_whip, Team.opposition, "Opposition Whip", 420⟩,
   ⟨Role.opposition_reply, Team.opposition, "Opposition Reply", 240⟩,
   ⟨Role.government_reply, Team.government, "Government Reply", 240⟩]

inductive RoomStatus where
  | waiting
  | in_progress
  | completed
  | cancelled
deriving DecidableEq, Repr

inductive Phase where
  | setup
  | debate
  | feedback
  | completed
deriving DecidableEq, Repr

/-- The `debate_rooms` row fields the speaking-order logic reads and writes
(`src/drizzle/schema.ts` lines 27–40).  Timestamps are abstract `Nat` clock
values. -/
structure Room where
  id : Nat
  creatorId : Nat
  motionId : Option Nat
  status : RoomStatus
  currentSpeakerIndex : Option Int
  currentPhase : Phase
  startedAt : Option Nat
  endedAt : Option Nat
deriving DecidableEq, Repr

/-- A `debate_participants` row as seen by `start`/`advanceSpeaker`
(`speakerRole`, `isReady`, `userId`). -/
structure Participant where
  speakerRole : Role
  isReady : Bool
  userId : Nat
deriving DecidableEq, Repr

/-- The `TRPCError` kinds thrown by `start`/`advanceSpeaker`, with the
user-visible message.  `internal` marks a control path the JavaScript source
can never reach (proved unreachable below). -/
inductive DebateError where
  | notFound (msg : String)
  | forbidden (msg : String)
  | badRequest (msg : String)
  | internal
deriving DecidableEq, Repr

/-- The value returned by `advanceSpeaker`
(`{ completed, nextSpeakerIndex }`). -/
structure AdvanceResult where
  completed : Bool
  nextSpeakerIndex : Option Int
deriving DecidableEq, Repr

/-- `Array.findIndex`: index of the first match, `-1` if none. -/
def jsFindIdx (p : α → Bool) (l : List α) : Int :=
  match l.findIdx? p with
  | some i => (i : Int)
  | none => -1

/-- JavaScript array indexing: `undefined` (i.e. `none`) out of range. -/
def jsGet (l : List α) (i : Int) : Option α :=
  if i < 0 then none else l.get? i.toNat

/-- `new Set(participants.map((p) => p.speakerRole))` with `.has` membership
(`src/server/routers.ts` lines 295–297 and 350–352). -/
def participantRoles (roster : List Participant) : Role → Bool :=
  fun r => roster.any fun q => q.speakerRole == r

/-- The filter callback of `activeSpeakingOrder`
(`src/server/routers.ts` lines 356–365): reply slots are kept iff their
anchor role joined, regular slots iff their own role joined. -/
def activePred (S : Role → Bool) (speaker : Slot) : Bool :=
  if speaker.role == Role.opposition_reply then S Role.leader_of_opposition
  else if speaker.role == Role.government_reply then S Role.prime_minister
  else S speaker.role

/-- `activeSpeakingOrder = fullSpeakingOrder.filter(...)`
(`src/server/routers.ts` line 356). -/
def activeSpeakingOrder (S : Role → Bool) : List Slot :=
  SPEAKING_ORDER.filter (activePred S)

/-- The spec's own wording of the §4.1 filter rule, for the refinement
comparison with `activePred`: regular slot included iff its role is present,
`government_reply` iff `prime_minister` is present, `opposition_reply` iff
`leader_of_opposition` is present. -/
def specInclude (S : Role → Bool) (slot : Slot) : Bool :=
  match slot.role with
  | Role.opposition_reply => S Role.leader_of_opposition
  | Role.government_reply => S Role.prime_minister
  | r => S r

/-- The six regular (non-reply) roles. -/
def isPrimary : Role → Bool
  | Role.opposition_reply => false
  | Role.government_reply => false
  | _ => true

/-- The first-speaker scan of `start` (`src/server/routers.ts` lines
299–328): walk the full format, break at the first slot whose role (or, for
reply slots, anchor role) joined; `firstSpeakerIndex` stays `0` if the loop
never breaks. -/
def firstSpeakerScan (S : Role → Bool) : List Slot → Nat → Nat
  | [], _ => 0
  | speaker :: rest, i =>
    if speaker.role == Role.opposition_reply then
      if S Role.leader_of_opposition then i else firstSpeakerScan S rest (i + 1)
    else if speaker.role == Role.government_reply then
      if S Role.prime_minister then i else firstSpeakerScan S rest (i + 1)
    else
      if S speaker.role then i else firstSpeakerScan S rest (i + 1)

def firstSpeakerIndex (S : Role → Bool) : Nat :=
  firstSpeakerScan S SPEAKING_ORDER 0

/-- Full-format index of the first Active Order slot (`-1` when the Active
Order is empty); the value §4.2 says `start` must persist. -/
def activeHeadFullIdx (S : Role → Bool) : Int :=
  match (activeSpeakingOrder S).head? with
  | some s => jsFindIdx (fun t => t.role == s.role) SPEAKING_ORDER
  | none => -1

/-- Role of the last Active Order slot, if any. -/
def activeLastRole (S : Role → Bool) : Option Role :=
  ((activeSpeakingOrder S).getLast?).map (·.role)

/-- Role of the slot `currentSpeakerIndex` points at:
`fullSpeakingOrder[room.currentSpeakerIndex || 0]?.role`
(`src/server/routers.ts` line 368). -/
def currentRoleOf (room : Room) : Option Role :=
  (jsGet SPEAKING_ORDER (room.currentSpeakerIndex.getD 0)).map (·.role)

/-- Outcome of the pure decision core of `advanceSpeaker`. -/
inductive StepOutcome where
  | finish
  | next (fullIdx : Int)
  | stuck
deriving DecidableEq, Repr

/-- Decision core of `advanceSpeaker` (`src/server/routers.ts` lines
354–388), a pure function of the joined-role set and the current slot's role:
locate the current role in the active order (`findIndex`, `-1` when absent),
step to the next active position, and either finish the debate or name the
next slot's full-format index.  `stuck` is the indexing path JavaScript could
only reach if the guarded `activeSpeakingOrder[nextActiveIndex]` were
`undefined`; the guard makes that impossible (proved below). -/
def stepOutcome (S : Role → Bool) (currentRole : Option Role) : StepOutcome :=
  let active := activeSpeakingOrder S
  let currentActiveIndex : Int := jsFindIdx (fun s => currentRole == some s.role) active
  let nextActiveIndex : Int := currentActiveIndex + 1
  if nextActiveIndex ≥ (active.length : Int) then
    StepOutcome.finish
  else
    match active.get? nextActiveIndex.toNat with
    | some nextSpeaker =>
        StepOutcome.next (jsFindIdx (fun s => s.role == nextSpeaker.role) SPEAKING_ORDER)
    | none => StepOutcome.stuck

/-- The advance branch of the decision core, as an `Option`. -/
def stepNext (S : Role → Bool) (currentRole : Option Role) : Option Int :=
  match stepOutcome S currentRole with
  | StepOutcome.next j => some j
  | _ => none

/-- `rooms.start` (`src/server/routers.ts` lines 258–338).  Checks, in source
order: room exists, caller is creator, motion set, at least one participant,
all participants ready; then persists `in_progress`/`debate`, the
first-speaker index and the start timestamp. -/
def start (room? : Option Room) (callerId : Nat) (roster : List Participant)
    (now : Nat) : Except DebateError (Room × Bool) :=
  match room? with
  | none => Except.error (DebateError.notFound "Room not found")
  | some room =>
    if room.creatorId ≠ callerId then
      Except.error (DebateError.forbidden "Only the room creator can start the debate")
    else if room.motionId = none then
      Except.error (DebateError.badRequest "A motion must be set before starting")
    else if roster.length < 1 then
      Except.error (DebateError.badRequest "At least one participant must join before starting")
    else if (roster.all fun p => p.isReady) = false then
      Except.error (DebateError.badRequest "All participants must be ready")
    else
      Except.ok ({ room with
                    status := RoomStatus.in_progress,
                    currentPhase := Phase.debate,
                    currentSpeakerIndex := some ((firstSpeakerIndex (participantRoles roster) : Int)),
                    startedAt := some now }, true)

/-- `rooms.advanceSpeaker` (`src/server/routers.ts` lines 340–394): room
lookup, then the decision core on the joined-role set and the current slot's
role; the terminal branch persists `feedback`/`completed` and the end
timestamp, the advance branch persists the next full-format index.  Note the
source checks neither `status` nor `currentPhase`. -/
def advanceSpeaker (room? : Option Room) (roster : List Participant)
    (now : Nat) : Except DebateError (Room × AdvanceResult) :=
  match room? with
  | none => Except.error (DebateError.notFound "Room not found")
  | some room =>
    match stepOutcome (participantRoles roster) (currentRoleOf room) with
    | StepOutcome.finish =>
        Except.ok ({ room with
                      currentPhase := Phase.feedback,
                      status := RoomStatus.completed,
                      endedAt := some now }, ⟨true, none⟩)
    | StepOutcome.next nextFullIndex =>
        Except.ok ({ room with currentSpeakerIndex := some nextFullIndex },
                   ⟨false, some nextFullIndex⟩)
    | StepOutcome.stuck => Except.error DebateError.internal

/-- Room after a mutation result, the error case leaving the given room
untouched (a thrown `TRPCError` happens before any `updateDebateRoom`). -/
def roomAfter (fallback : Room) (r : Except DebateError (Room × α)) : Room :=
  match r with
  | Except.ok (rm, _) => rm
  | Except.error _ => fallback

/-- Result of an `advanceSpeaker` call (errors carry no result). -/
def resAfter (r : Except DebateError (Room × AdvanceResult)) : AdvanceResult :=
  match r with
  | Except.ok (_, res) => res
  | Except.error _ => ⟨false, none⟩

/-- A joined-role set from eight membership flags, in format order. -/
def roleSet (a b c d e f g k : Bool) : Role → Bool
  | Role.prime_minister => a
  | Role.leader_of_opposition => b
  | Role.deputy_prime_minister => c
  | Role.deputy_leader_of_opposition => d
  | Role.government_whip => e
  | Role.opposition_whip => f
  | Role.opposition_reply => g
  | Role.government_reply => k

/-- Membership-only monotonicity check for one advance step from full-format
position `n`: if the step advances to full index `j`, then `j` exceeds `n`
and `j` again points at an Active Order slot. -/
def advanceStepCheck (S : Role → Bool) (n : Fin 8) : Bool :=
  match stepNext S ((jsGet SPEAKING_ORDER (n.val : Int)).map (·.role)) with
  | some j =>
      decide ((n.val : Int) < j) &&
      decide (∃ s ∈ activeSpeakingOrder S, (jsGet SPEAKING_ORDER j).map (·.role) = some s.role)
  | none => true

/-- The joined-role set containing only the Prime Minister. -/
def onlyPM : Role → Bool
  | Role.prime_minister => true
  | _ => false

/- Concrete scenario data used by the testable-property claims. -/

/-- Roster with only `prime_minister` and `leader_of_opposition`, both ready. -/
def rosterPMLO : List Participant :=
  [⟨Role.prime_minister, true, 1⟩, ⟨Role.leader_of_opposition, true, 2⟩]

/-- Roster with `deputy_prime_minister` and all three opposition roles, all
ready (`government_whip` and `prime_minister` absent). -/
def rosterDPMOpp : List Participant :=
  [⟨Role.deputy_prime_minister, true, 1⟩, ⟨Role.leader_of_opposition, true, 2⟩,
   ⟨Role.deputy_leader_of_opposition, true, 3⟩, ⟨Role.opposition_whip, true, 4⟩]

/-- Roster where one of two joined participants is not ready. -/
def rosterNotReady : List Participant :=
  [⟨Role.prime_minister, true, 1⟩, ⟨Role.leader_of_opposition, false, 2⟩]

/-- A freshly created room: waiting, setup, motion attached, creator 1. -/
def waitingRoom : Room :=
  ⟨2, 1, some 1, RoomStatus.waiting, some 0, Phase.setup, none, none⟩

/-- A room whose debate already finished: completed, feedback, end
timestamp 20, current index parked on the last active slot of `rosterPMLO`. -/
def doneRoom : Room :=
  ⟨3, 1, some 1, RoomStatus.completed, some 7, Phase.feedback, some 10, some 20⟩

/-- An in-progress room whose current slot (full index 7, government reply)
is the last Active Order slot of `rosterPMLO`. -/
def lastSlotRoom : Room :=
  ⟨4, 1, some 1, RoomStatus.in_progress, some 7, Phase.debate, some 10, none⟩

/-- An in-progress room currently on full-format index 0 (prime minister). -/
def liveRoom : Room :=
  ⟨6, 1, some 1, RoomStatus.in_progress, some 0, Phase.debate, some 10, none⟩

/-- Room used for the two-speaker end-to-end run. -/
def c4_room0 : Room :=
  ⟨1, 1, some 1, RoomStatus.waiting, some 0, Phase.setup, none, none⟩

def c4_start : Except DebateError (Room × Bool) := start (some c4_room0) 1 rosterPMLO 10

def c4_room1 : Room := roomAfter c4_room0 c4_start

def c4_adv1 : Except DebateError (Room × AdvanceResult) := advanceSpeaker (some c4_room1) rosterPMLO 11

def c4_room2 : Room := roomAfter c4_room1 c4_adv1

def c4_adv2 : Except DebateError (Room × AdvanceResult) := advanceSpeaker (some c4_room2) rosterPMLO 12

def c4_room3 : Room := roomAfter c4_room2 c4_adv2

def c4_adv3 : Except DebateError (Room × AdvanceResult) := advanceSpeaker (some c4_room3) rosterPMLO 13

def c4_room4 : Room := roomAfter c4_room3 c4_adv3

def c4_adv4 : Except DebateError (Room × AdvanceResult) := advanceSpeaker (some c4_room4) rosterPMLO 14

/-- Room used for the partial-roster first-speaker scenario. -/
def c5_room : Room :=
  ⟨5, 1, some 1, RoomStatus.waiting, some 0, Phase.setup, none, none⟩

/-! ## Helper lemmas -/

/-- Every joined-role set is a `roleSet` of its eight membership flags. -/
theorem roleSet_eta (S : Role → Bool) :
    roleSet (S Role.prime_minister) (S Role.leader_of_opposition) (S Role.deputy_prime_minister)
      (S Role.deputy_leader_of_opposition) (S Role.government_whip) (S Role.opposition_whip)
      (S Role.opposition_reply) (S Role.government_reply) = S := by
  funext r; cases r <;> rfl

/-- The source's filter callback and the spec's §4.1 filter rule agree on
every slot. -/
theorem activePred_eq_specInclude (S : Role → Bool) (x : Slot) :
    activePred S x = specInclude S x := by
  rcases x with ⟨r, t, lb, tm⟩
  cases r <;> rfl

/-- The decision core never reaches the dead indexing branch. -/
theorem step_no_stuck : ∀ (a b c d e f g k : Bool) (r : Option Role),
    stepOutcome (roleSet a b c d e f g k) r ≠ StepOutcome.stuck := by decide

/-- With an empty Active Order the decision core always finishes. -/
theorem step_empty_finish : ∀ (a b c d e f g k : Bool) (r : Option Role),
    activeSpeakingOrder (roleSet a b c d e f g k) = [] →
    stepOutcome (roleSet a b c d e f g k) r = StepOutcome.finish := by decide

/-- On the last Active Order slot the decision core finishes. -/
theorem step_last_finish : ∀ (a b c d e f g k : Bool) (r : Option Role),
    r = activeLastRole (roleSet a b c d e f g k) →
    stepOutcome (roleSet a b c d e f g k) r = StepOutcome.finish := by decide

/-- When the current role does not occur in a non-empty Active Order, the
`findIndex` result `-1` plus one restarts the walk at the Active Order's
first slot. -/
theorem step_fallback_first : ∀ (a b c d e f g k : Bool) (r : Option Role),
    activeSpeakingOrder (roleSet a b c d e f g k) ≠ [] →
    (¬ ∃ s ∈ activeSpeakingOrder (roleSet a b c d e f g k), r = some s.role) →
    stepOutcome (roleSet a b c d e f g k) r =
      StepOutcome.next (activeHeadFullIdx (roleSet a b c d e f g k)) := by decide

/-- When some regular role is present, the first-speaker scan of `start`
lands on the full-format index of the Active Order's first slot. -/
theorem firstIdx_eq_headIdx_core : ∀ (a b c d e f g k : Bool),
    (a || b || c || d || e || f) = true →
    ((firstSpeakerIndex (roleSet a b c d e f g k) : Int)) =
      activeHeadFullIdx (roleSet a b c d e f g k) := by decide

/-- The monotonicity check passes whenever the current full-format slot's
role occurs in the Active Order. -/
theorem advanceStepCheck_core : ∀ (a b c d e f g k : Bool) (n : Fin 8),
    (∃ s ∈ activeSpeakingOrder (roleSet a b c d e f g k),
        (jsGet SPEAKING_ORDER (n.val : Int)).map (·.role) = some s.role) →
    advanceStepCheck (roleSet a b c d e f g k) n = true := by decide

/-- `step_no_stuck` for an arbitrary joined-role set. -/
theorem step_no_stuck_any (S : Role → Bool) (r : Option Role) :
    stepOutcome S r ≠ StepOutcome.stuck := by
  have key := step_no_stuck (S Role.prime_minister) (S Role.leader_of_opposition)
    (S Role.deputy_prime_minister) (S Role.deputy_leader_of_opposition)
    (S Role.government_whip) (S Role.opposition_whip) (S Role.opposition_reply)
    (S Role.government_reply) r
  rwa [roleSet_eta S] at key

/-- `step_empty_finish` for an arbitrary joined-role set. -/
theorem step_empty_finish_any (S : Role → Bool) (r : Option Role)
    (h : activeSpeakingOrder S = []) : stepOutcome S r = StepOutcome.finish := by
  have key := step_empty_finish (S Role.prime_minister) (S Role.leader_of_opposition)
    (S Role.deputy_prime_minister) (S Role.deputy_leader_of_opposition)
    (S Role.government_whip) (S Role.opposition_whip) (S Role.opposition_reply)
    (S Role.government_reply) r
  rw [roleSet_eta S] at key
  exact key h

/-- `step_last_finish` for an arbitrary joined-role set. -/
theorem step_last_finish_any (S : Role → Bool) (r : Option Role)
    (h : r = activeLastRole S) : stepOutcome S r = StepOutcome.finish := by
  have key := step_last_finish (S Role.prime_minister) (S Role.leader_of_opposition)
    (S Role.deputy_prime_minister) (S Role.deputy_leader_of_opposition)
    (S Role.government_whip) (S Role.opposition_whip) (S Role.opposition_reply)
    (S Role.government_reply) r
  rw [roleSet_eta S] at key
  exact key h

/-- `step_fallback_first` for an arbitrary joined-role set. -/
theorem step_fallback_first_any (S : Role → Bool) (r : Option Role)
    (hne : activeSpeakingOrder S ≠ [])
    (hnot : ¬ ∃ s ∈ activeSpeakingOrder S, r = some s.role) :
    stepOutcome S r = StepOutcome.next (activeHeadFullIdx S) := by
  have key := step_fallback_first (S Role.prime_minister) (S Role.leader_of_opposition)
    (S Role.deputy_prime_minister) (S Role.deputy_leader_of_opposition)
    (S Role.government_whip) (S Role.opposition_whip) (S Role.opposition_reply)
    (S Role.government_reply) r
  rw [roleSet_eta S] at key
  exact key hne hnot

/-- `advanceStepCheck_core` for an arbitrary joined-role set. -/
theorem advanceStepCheck_any (S : Role → Bool) (n : Fin 8)
    (h : ∃ s ∈ activeSpeakingOrder S,
          (jsGet SPEAKING_ORDER (n.val : Int)).map (·.role) = some s.role) :
    advanceStepCheck S n = true := by
  have key := advanceStepCheck_core (S Role.prime_minister) (S Role.leader_of_opposition)
    (S Role.deputy_prime_minister) (S Role.deputy_leader_of_opposition)
    (S Role.government_whip) (S Role.opposition_whip) (S Role.opposition_reply)
    (S Role.government_reply) n
  rw [roleSet_eta S] at key
  exact key h

/-- `firstIdx_eq_headIdx_core` for an arbitrary joined-role set containing
at least one regular role. -/
theorem firstIdx_eq_headIdx (S : Role → Bool)
    (h : ∃ r, isPrimary r = true ∧ S r = true) :
    ((firstSpeakerIndex S : Int)) = activeHeadFullIdx S := by
  obtain ⟨r, hr, hs⟩ := h
  have key := firstIdx_eq_headIdx_core (S Role.prime_minister) (S Role.leader_of_opposition)
    (S Role.deputy_prime_minister) (S Role.deputy_leader_of_opposition)
    (S Role.government_whip) (S Role.opposition_whip) (S Role.opposition_reply)
    (S Role.government_reply)
  rw [roleSet_eta S] at key
  apply key
  cases r <;> simp_all [isPrimary]

/-! ## Claim theorems -/

/-- Claim C1: for every non-empty set `S` of the six primary roles, the
derived active speaking order is exactly the stable filter of the 8-slot
format by the spec's §4.1 inclusion rule (regular slot iff its role is in
`S`, `opposition_reply` iff `leader_of_opposition` is in `S`,
`government_reply` iff `prime_minister` is in `S`), and it is an
order-preserving subsequence of the format; the derivation is a pure
function of the format and `S`. -/
theorem deriveActiveOrder_correct (S : Role → Bool)
    (hsub : ∀ r, S r = true → isPrimary r = true) (hne : ∃ r, S r = true) :
    activeSpeakingOrder S = SPEAKING_ORDER.filter (specInclude S) ∧
      List.Sublist (activeSpeakingOrder S) SPEAKING_ORDER := by
  refine ⟨?_, ?_⟩
  · rw [activeSpeakingOrder, funext (activePred_eq_specInclude S)]
  · show List.Sublist (SPEAKING_ORDER.filter (activePred S)) SPEAKING_ORDER
    exact List.filter_sublist _

/-- Witness for C1 at the set containing only the Prime Minister. -/
theorem deriveActiveOrder_correct_witness :
    (∀ r, onlyPM r = true → isPrimary r = true) ∧ (∃ r, onlyPM r = true) ∧
    (activeSpeakingOrder onlyPM = SPEAKING_ORDER.filter (specInclude onlyPM) ∧
      List.Sublist (activeSpeakingOrder onlyPM) SPEAKING_ORDER) :=
  ⟨by decide, ⟨Role.prime_minister, rfl⟩,
   deriveActiveOrder_correct onlyPM (by decide) ⟨Role.prime_minister, rfl⟩⟩

/-- Claim C2: when all `start` preconditions hold (room exists, caller is
creator, motion attached, at least one participant, all ready — roster roles
drawn from the six regular roles as the schema enum enforces), `start`
persists `status = in_progress`, `currentPhase = debate`, the start
timestamp, and `currentSpeakerIndex` equal to the full-format index of the
first Active Order slot (the first present role in canonical order, not
necessarily 0). -/
theorem startDebate_effect (room : Room) (callerId : Nat) (roster : List Participant)
    (now : Nat)
    (hcreator : room.creatorId = callerId) (hmotion : room.motionId ≠ none)
    (hjoined : roster ≠ []) (hready : (roster.all fun p => p.isReady) = true)
    (hprim : ∀ p ∈ roster, isPrimary p.speakerRole = true) :
    start (some room) callerId roster now =
      Except.ok ({ room with
                    status := RoomStatus.in_progress,
                    currentPhase := Phase.debate,
                    currentSpeakerIndex := some (activeHeadFullIdx (participantRoles roster)),
                    startedAt := some now }, true) := by
  obtain ⟨p, hp⟩ := List.exists_mem_of_ne_nil roster hjoined
  have hSp : participantRoles roster p.speakerRole = true := by
    simp only [participantRoles, List.any_eq_true]
    exact ⟨p, hp, by simp⟩
  have hidx : ((firstSpeakerIndex (participantRoles roster) : Int)) =
      activeHeadFullIdx (participantRoles roster) :=
    firstIdx_eq_headIdx _ ⟨p.speakerRole, hprim p hp, hSp⟩
  have hlen : ¬ (roster.length < 1) := by
    have := List.length_pos.mpr hjoined
    omega
  simp only [start]
  rw [if_neg (by simp [hcreator]), if_neg hmotion, if_neg hlen,
      if_neg (by simp [hready]), hidx]

/-- Witness for C2: the creator starts a fresh room with PM and LO joined
and ready. -/
theorem startDebate_effect_witness :
    waitingRoom.creatorId = 1 ∧ waitingRoom.motionId ≠ none ∧ rosterPMLO ≠ [] ∧
    (rosterPMLO.all fun p => p.isReady) = true ∧
    (∀ p ∈ rosterPMLO, isPrimary p.speakerRole = true) ∧
    start (some waitingRoom) 1 rosterPMLO 7 =
      Except.ok ({ waitingRoom with
                    status := RoomStatus.in_progress,
                    currentPhase := Phase.debate,
                    currentSpeakerIndex := some (activeHeadFullIdx (participantRoles rosterPMLO)),
                    startedAt := some 7 }, true) :=
  ⟨rfl, by decide, by decide, rfl, by decide,
   startDebate_effect waitingRoom 1 rosterPMLO 7 rfl (by decide) (by decide) rfl (by decide)⟩

/-- Claim C3 (code bug, evaluated): `advanceSpeaker` checks neither `status`
nor `currentPhase`.  On a `waiting` room with an empty roster it runs the
terminal branch, moving the room to `completed`/`feedback` with an end
timestamp; on an already-`completed` room it re-runs the terminal branch and
overwrites the end timestamp.  In both cases the call succeeds and mutates a
room that is not `in_progress`, instead of rejecting or being a no-op. -/
theorem advance_missing_state_guard :
    advanceSpeaker (some waitingRoom) [] 5 =
      Except.ok ({ waitingRoom with
                    currentPhase := Phase.feedback, status := RoomStatus.completed,
                    endedAt := some 5 }, ⟨true, none⟩) ∧
    { waitingRoom with
        currentPhase := Phase.feedback, status := RoomStatus.completed,
        endedAt := some 5 } ≠ waitingRoom ∧
    advanceSpeaker (some doneRoom) rosterPMLO 99 =
      Except.ok ({ doneRoom with
                    currentPhase := Phase.feedback, status := RoomStatus.completed,
                    endedAt := some 99 }, ⟨true, none⟩) ∧
    { doneRoom with
        currentPhase := Phase.feedback, status := RoomStatus.completed,
        endedAt := some 99 } ≠ doneRoom :=
  ⟨rfl, by decide, rfl, by decide⟩

/-- Counterexample to C4 as stated: in the two-speaker run the fourth
`advanceSpeaker` call already returns `completed = true`, so it is not the
case that all calls before the fifth return `completed = false`. -/
theorem twoSpeaker_fourth_call_completes :
    (resAfter c4_adv4).completed = true ∧ ¬ ((resAfter c4_adv4).completed = false) :=
  ⟨rfl, by decide⟩

/-- Claim C4 as amended: with only `prime_minister` and
`leader_of_opposition` joined, the Active Order is exactly the four slots
[prime_minister, leader_of_opposition, opposition_reply, government_reply];
starting the debate puts the current index at 0, the first three
`advanceSpeaker` calls return `completed = false` (advancing to full-format
indices 1, 6, 7), and the fourth call — not the fifth — returns
`completed = true`. -/
theorem twoSpeaker_run :
    activeSpeakingOrder (participantRoles rosterPMLO) =
      [⟨Role.prime_minister, Team.government, "Prime Minister", 420⟩,
       ⟨Role.leader_of_opposition, Team.opposition, "Leader of Opposition", 420⟩,
       ⟨Role.opposition_reply, Team.opposition, "Opposition Reply", 240⟩,
       ⟨Role.government_reply, Team.government, "Government Reply", 240⟩] ∧
    c4_room1.currentSpeakerIndex = some 0 ∧
    c4_room1.status = RoomStatus.in_progress ∧
    resAfter c4_adv1 = ⟨false, some 1⟩ ∧
    resAfter c4_adv2 = ⟨false, some 6⟩ ∧
    resAfter c4_adv3 = ⟨false, some 7⟩ ∧
    resAfter c4_adv4 = ⟨true, none⟩ :=
  ⟨rfl, rfl, rfl, rfl, rfl, rfl, rfl⟩

/-- Counterexample to C5 as stated: with `deputy_prime_minister` and all
three opposition roles present (PM and government whip absent), `start` sets
`currentSpeakerIndex` to 1 — `leader_of_opposition` is present and sits at
full-format index 1, before the deputy prime minister's index 2 — so the
persisted index is not 2. -/
theorem partialRoster_start_not_index_two :
    start (some c5_room) 1 rosterDPMOpp 7 =
      Except.ok ({ c5_room with
                    status := RoomStatus.in_progress, currentPhase := Phase.debate,
                    currentSpeakerIndex := some 1, startedAt := some 7 }, true) ∧
    (roomAfter c5_room (start (some c5_room) 1 rosterDPMOpp 7)).currentSpeakerIndex ≠ some 2 :=
  ⟨rfl, by decide⟩

/-- Claim C5 as amended: starting a room whose roster has `government_whip`
and `prime_minister` absent but `deputy_prime_minister` and all three
opposition roles present sets `currentSlotIndex` to `leader_of_opposition`'s
full-format index 1 — the first present role in canonical order — not 0 and
not 2. -/
theorem partialRoster_start_index (room : Room) (callerId : Nat) (now : Nat)
    (hcreator : room.creatorId = callerId) (hmotion : room.motionId ≠ none) :
    start (some room) callerId rosterDPMOpp now =
      Except.ok ({ room with
                    status := RoomStatus.in_progress, currentPhase := Phase.debate,
                    currentSpeakerIndex := some 1, startedAt := some now }, true) ∧
    some (1 : Int) ≠ some (0 : Int) ∧ some (1 : Int) ≠ some (2 : Int) := by
  refine ⟨?_, by decide, by decide⟩
  have h1 : ((firstSpeakerIndex (participantRoles rosterDPMOpp) : Int)) = 1 := by decide
  simp only [start]
  rw [if_neg (by simp [hcreator]), if_neg hmotion, if_neg (by decide), if_neg (by decide), h1]

/-- Witness for C5's amended statement at a concrete fresh room. -/
theorem partialRoster_start_index_witness :
    c5_room.creatorId = 1 ∧ c5_room.motionId ≠ none ∧
    (start (some c5_room) 1 rosterDPMOpp 7 =
      Except.ok ({ c5_room with
                    status := RoomStatus.in_progress, currentPhase := Phase.debate,
                    currentSpeakerIndex := some 1, startedAt := some 7 }, true) ∧
     some (1 : Int) ≠ some (0 : Int) ∧ some (1 : Int) ≠ some (2 : Int)) :=
  ⟨rfl, by decide, partialRoster_start_index c5_room 1 7 rfl (by decide)⟩

/-- Claim C6: whenever `advanceSpeaker` is called with the current slot being
the last slot of the (non-empty) Active Order, it returns
`{completed: true, nextSlotIndex: null}` and persists `status = completed`,
`currentPhase = feedback`, and the end timestamp. -/
theorem advance_last_slot_completes (room : Room) (roster : List Participant) (now : Nat)
    (hne : activeSpeakingOrder (participantRoles roster) ≠ [])
    (hcur : currentRoleOf room = activeLastRole (participantRoles roster)) :
    advanceSpeaker (some room) roster now =
      Except.ok ({ room with
                    currentPhase := Phase.feedback, status := RoomStatus.completed,
                    endedAt := some now }, ⟨true, none⟩) := by
  have hstep := step_last_finish_any (participantRoles roster) (currentRoleOf room) hcur
  simp only [advanceSpeaker, hstep]

/-- Witness for C6: advancing a PM/LO room parked on full-format index 7
(the government reply, last Active Order slot). -/
theorem advance_last_slot_completes_witness :
    activeSpeakingOrder (participantRoles rosterPMLO) ≠ [] ∧
    currentRoleOf lastSlotRoom = activeLastRole (participantRoles rosterPMLO) ∧
    advanceSpeaker (some lastSlotRoom) rosterPMLO 20 =
      Except.ok ({ lastSlotRoom with
                    currentPhase := Phase.feedback, status := RoomStatus.completed,
                    endedAt := some 20 }, ⟨true, none⟩) :=
  ⟨by decide, by decide,
   advance_last_slot_completes lastSlotRoom rosterPMLO 20 (by decide) (by decide)⟩

/-- Claim C7 (code bug, evaluated): `start` has no `status` guard, so it is
not restricted to `waiting` rooms and the phase machine is not monotone:
calling `start` on an already-completed room (phase `feedback`) succeeds and
moves the room back to `status = in_progress`, `currentPhase = debate`. -/
theorem start_on_completed_room_regresses :
    doneRoom.status = RoomStatus.completed ∧ doneRoom.currentPhase = Phase.feedback ∧
    start (some doneRoom) 1 rosterPMLO 30 =
      Except.ok ({ doneRoom with
                    status := RoomStatus.in_progress, currentPhase := Phase.debate,
                    currentSpeakerIndex := some 0, startedAt := some 30 }, true) ∧
    (roomAfter doneRoom (start (some doneRoom) 1 rosterPMLO 30)).currentPhase = Phase.debate :=
  ⟨rfl, rfl, rfl, rfl⟩

/-- Claim C8: for an existing room with a motion and a non-empty roster,
when the caller is the creator and some joined participant is not ready,
`start` fails with the `BAD_REQUEST` (precondition-failed) error naming the
readiness precondition — "All participants must be ready" — and, the error
being thrown before any `updateDebateRoom`, the room is unchanged. -/
theorem startDebate_ready_precondition (room : Room) (callerId : Nat)
    (roster : List Participant) (now : Nat)
    (hcreator : room.creatorId = callerId) (hmotion : room.motionId ≠ none)
    (hjoined : roster ≠ [])
    (hnotready : ∃ p ∈ roster, p.isReady = false) :
    start (some room) callerId roster now =
      Except.error (DebateError.badRequest "All participants must be ready") := by
  have hall : (roster.all fun p => p.isReady) = false := by
    obtain ⟨p, hp, hr⟩ := hnotready
    cases h : roster.all fun p => p.isReady
    · rfl
    · rw [List.all_eq_true] at h
      have hpr := h p hp
      rw [hr] at hpr
      exact absurd hpr (by decide)
  have hlen : ¬ (roster.length < 1) := by
    have := List.length_pos.mpr hjoined
    omega
  simp only [start]
  rw [if_neg (by simp [hcreator]), if_neg hmotion, if_neg hlen, if_pos hall]

/-- Witness for C8: two joined participants, the leader of opposition not
ready. -/
theorem startDebate_ready_precondition_witness :
    waitingRoom.creatorId = 1 ∧ waitingRoom.motionId ≠ none ∧ rosterNotReady ≠ [] ∧
    (∃ p ∈ rosterNotReady, p.isReady = false) ∧
    start (some waitingRoom) 1 rosterNotReady 7 =
      Except.error (DebateError.badRequest "All participants must be ready") :=
  ⟨rfl, by decide, by decide, by decide,
   startDebate_ready_precondition waitingRoom 1 rosterNotReady 7 rfl (by decide)
     (by decide) (by decide)⟩

/-- Claim C9 (implicit): `advanceSpeaker` is total on every room and roster
snapshot — the dead indexing branch is unreachable for any persisted
`currentSpeakerIndex` (null, 0, or out of range); when the slot looked up by
`currentSpeakerIndex || 0` has a role not occurring in a non-empty Active
Order, the `findIndex` `-1` plus one fallback returns
`completed = false` with the full-format index of the Active Order's first
slot; and when the Active Order is empty it returns `completed = true`. -/
theorem advance_total_fallback (room : Room) (roster : List Participant) (now : Nat) :
    advanceSpeaker (some room) roster now ≠ Except.error DebateError.internal ∧
    (activeSpeakingOrder (participantRoles roster) = [] →
      advanceSpeaker (some room) roster now =
        Except.ok ({ room with
                      currentPhase := Phase.feedback, status := RoomStatus.completed,
                      endedAt := some now }, ⟨true, none⟩)) ∧
    (activeSpeakingOrder (participantRoles roster) ≠ [] →
      (¬ ∃ s ∈ activeSpeakingOrder (participantRoles roster),
          currentRoleOf room = some s.role) →
      advanceSpeaker (some room) roster now =
        Except.ok ({ room with
                      currentSpeakerIndex := some (activeHeadFullIdx (participantRoles roster)) },
                   ⟨false, some (activeHeadFullIdx (participantRoles roster))⟩)) := by
  refine ⟨?_, ?_, ?_⟩
  · cases hso : stepOutcome (participantRoles roster) (currentRoleOf room) with
    | finish => simp [advanceSpeaker, hso]
    | next j => simp [advanceSpeaker, hso]
    | stuck => exact absurd hso (step_no_stuck_any _ _)
  · intro hempty
    have hstep := step_empty_finish_any (participantRoles roster) (currentRoleOf room) hempty
    simp only [advanceSpeaker, hstep]
  · intro hne hnot
    have hstep := step_fallback_first_any (participantRoles roster) (currentRoleOf room) hne hnot
    simp only [advanceSpeaker, hstep]

/-- Witness for C9, exercising the empty-Active-Order branch: advancing a
waiting room with an empty roster completes immediately without error. -/
theorem advance_total_fallback_witness :
    advanceSpeaker (some waitingRoom) [] 5 ≠ Except.error DebateError.internal ∧
    advanceSpeaker (some waitingRoom) [] 5 =
      Except.ok ({ waitingRoom with
                    currentPhase := Phase.feedback, status := RoomStatus.completed,
                    endedAt := some 5 }, ⟨true, none⟩) :=
  ⟨(advance_total_fallback waitingRoom [] 5).1,
   (advance_total_fallback waitingRoom [] 5).2.1 rfl⟩

/-- Claim C10 (implicit): strict index monotonicity — for a fixed roster and
a room whose in-range `currentSpeakerIndex` points at a slot whose role
occurs in the Active Order, a non-terminal `advanceSpeaker` call persists
and returns a full-format index strictly greater than the previous one, and
that index again points at an Active Order slot (so successive advances walk
the full-format indices strictly upward until completion). -/
theorem advance_strict_monotone (room : Room) (roster : List Participant) (now : Nat)
    (i : Int) (hidx : room.currentSpeakerIndex = some i) (h0 : 0 ≤ i) (h8 : i < 8)
    (hin : ∃ s ∈ activeSpeakingOrder (participantRoles roster),
            currentRoleOf room = some s.role)
    (room' : Room) (j : Int)
    (hadv : advanceSpeaker (some room) roster now = Except.ok (room', ⟨false, some j⟩)) :
    i < j ∧ room'.currentSpeakerIndex = some j ∧
      ∃ s ∈ activeSpeakingOrder (participantRoles roster),
        (jsGet SPEAKING_ORDER j).map (·.role) = some s.role := by
  have hn8 : i.toNat < 8 := by omega
  have hni : ((⟨i.toNat, hn8⟩ : Fin 8).val : Int) = i := by
    simp [Int.toNat_of_nonneg h0]
  have hcr : currentRoleOf room =
      (jsGet SPEAKING_ORDER ((⟨i.toNat, hn8⟩ : Fin 8).val : Int)).map (·.role) := by
    rw [currentRoleOf, hidx, hni]
    rfl
  cases hso : stepOutcome (participantRoles roster) (currentRoleOf room) with
  | finish =>
    simp [advanceSpeaker, hso] at hadv
  | stuck =>
    exact absurd hso (step_no_stuck_any _ _)
  | next m =>
    simp only [advanceSpeaker, hso, Except.ok.injEq, Prod.mk.injEq,
      AdvanceResult.mk.injEq, Option.some.injEq] at hadv
    obtain ⟨hroom, -, hm⟩ := hadv
    subst hm
    have hchk := advanceStepCheck_any (participantRoles roster) ⟨i.toNat, hn8⟩
      (by rw [← hcr]; exact hin)
    have hsn : stepNext (participantRoles roster) (currentRoleOf room) = some m := by
      simp [stepNext, hso]
    rw [advanceStepCheck, ← hcr, hsn] at hchk
    simp only [Bool.and_eq_true, decide_eq_true_eq] at hchk
    refine ⟨?_, ?_, hchk.2⟩
    · have := hchk.1
      omega
    · rw [← hroom]

/-- Witness for C10: advancing a PM/LO room from full-format index 0 moves
strictly upward to index 1, which is again an Active Order slot. -/
theorem advance_strict_monotone_witness :
    liveRoom.currentSpeakerIndex = some 0 ∧ (0 : Int) ≤ 0 ∧ (0 : Int) < 8 ∧
    (∃ s ∈ activeSpeakingOrder (participantRoles rosterPMLO),
        currentRoleOf liveRoom = some s.role) ∧
    advanceSpeaker (some liveRoom) rosterPMLO 11 =
      Except.ok ({ liveRoom with currentSpeakerIndex := some 1 }, ⟨false, some 1⟩) ∧
    ((0 : Int) < 1 ∧
      ({ liveRoom with currentSpeakerIndex := some 1 } : Room).currentSpeakerIndex = some 1 ∧
      ∃ s ∈ activeSpeakingOrder (participantRoles rosterPMLO),
        (jsGet SPEAKING_ORDER 1).map (·.role) = some s.role) :=
  ⟨rfl, by decide, by decide, by decide, rfl,
   advance_strict_monotone liveRoom rosterPMLO 11 0 rfl (by decide) (by decide) (by decide)
     { liveRoom with currentSpeakerIndex := some 1 } 1 rfl⟩
